import Mathlib

/-!
Verification development for the `automatoes` ACME client
(`src/automatoes/acme.py`).

The Python module is shallowly embedded: each client method is split into
its pure observable parts.  HTTP traffic is represented by `Response`
values supplied by the environment (one value per request the method
performs), Python dictionaries by association lists with Python's
assignment semantics (replace in place, else append), JSON documents by
the inductive `Json`, and raised exceptions by `Except` results.
Mutation of the caller's account record is made explicit: every operation
returns the account record as it stands after the call.
-/

namespace Automatoes

/-- JSON documents, as parsed by `response.json()`. -/
inductive Json where
  | null
  | bool (b : Bool)
  | num (n : Int)
  | str (s : String)
  | arr (elems : List Json)
  | obj (fields : List (String × Json))

/-- Python `d.get(k)` on a string-keyed dictionary (association list with
unique keys; first match wins). -/
def dget {α : Type} : List (String × α) → String → Option α
  | [], _ => none
  | (k2, v) :: t, k => if (k2 == k) then some v else dget t k

/-- Python `d[k] = v` on a string-keyed dictionary: replaces the value of an
existing key in place, otherwise appends the pair at the end (insertion
order semantics of Python dictionaries). -/
def dset {α : Type} : List (String × α) → String → α → List (String × α)
  | [], k, v => [(k, v)]
  | (k2, v2) :: t, k, v => if (k2 == k) then (k, v) :: t else (k2, v2) :: dset t k v

/-- Dictionary lookup inside a JSON object (`response.json()[k]` when the
parse is an object); `none` when the document is not an object or the key
is absent.  The embedding only exercises object documents here. -/
def jsonGet : Json → String → Option Json
  | Json.obj fields, k => dget fields k
  | _, _ => none

/-- A string-keyed JSON dictionary, the shape of every payload and of the
JWS headers built by `get_headers`. -/
def Dict : Type := List (String × Json)

/-- An HTTP response as the client observes it through `requests`:
status code, header dictionary, parsed `Link` relations (`response.links`,
mapping each `rel` to its URL), raw body bytes (`response.content`) and
the JSON parse of the body (`response.json()`), `none` when the body is
not valid JSON. -/
structure Response where
  status : Nat
  headers : List (String × String)
  links : List (String × String)
  content : String
  jsonBody : Option Json

/-- Exceptions the embedded code can raise.  `acmeError` stands for
`AcmeError(...)` (the generic protocol error, also raised by `_json` on an
invalid JSON body), `accountAlreadyExists` for
`AccountAlreadyExistsError(response, uri)` (only the carried URI is
modelled), `valueError` for an uncaught `ValueError` out of
`response.json()`, `keyError` for an uncaught `KeyError` out of a
directory lookup, and `typeError` for an uncaught `TypeError` out of a
membership test or subscription on a non-object document. -/
inductive PyError where
  | acmeError
  | accountAlreadyExists (uri : Option String)
  | valueError
  | keyError
  | typeError
deriving DecidableEq

/-- The caller's account record: an opaque key and the server-assigned
URI, absent until registration succeeds. -/
structure Account where
  key : String
  uri : Option String
deriving DecidableEq

/-- Result of `register` (acme.py line 224). -/
structure RegistrationResult where
  contents : Json
  uri : Option String
  terms : Option Json

/-- Result of `new_authorization` (acme.py line 225). -/
structure NewAuthorizationResult where
  contents : Json
  uri : Option String

/-- Result of `issue_certificate` (acme.py lines 226-227). -/
structure IssuanceResult where
  certificate : String
  location : Option String
  intermediate : Option String

/-- Python `str(status).startswith("2")` (acme.py lines 107, 119, 144). -/
def status2xx (status : Nat) : Bool :=
  "2".data.isPrefixOf (toString status).data

/-- Python `s.startswith(pre)`. -/
def pyStartsWith (s pre : String) : Bool :=
  pre.data.isPrefixOf s.data

/-- `revoke_certificate` (acme.py lines 177-184): `True` exactly on
status 200, `AcmeError` on any other status.  The account record is
untouched. -/
def Acme.revoke_certificate (acc : Account) (resp : Response) :
    Except PyError Bool × Account :=
  (if resp.status = 200 then Except.ok true else Except.error PyError.acmeError, acc)

/-- `validate_authorization` (acme.py lines 135-146): `True` on any 2xx
status, `AcmeError` otherwise.  The account record is untouched. -/
def Acme.validate_authorization (acc : Account) (resp : Response) :
    Except PyError Bool × Account :=
  (if status2xx resp.status then Except.ok true else Except.error PyError.acmeError, acc)

/-- `get_registration` (acme.py lines 100-109): the parsed JSON body on a
2xx status (`_json` raises `AcmeError` when the body does not parse),
`AcmeError` otherwise.  The account record is untouched. -/
def Acme.get_registration (acc : Account) (resp : Response) :
    Except PyError Json × Account :=
  (if status2xx resp.status then
      match resp.jsonBody with
      | some j => Except.ok j
      | none => Except.error PyError.acmeError
    else Except.error PyError.acmeError, acc)

/-- `get_authorization` (acme.py lines 148-156): the parsed JSON body;
a body that does not parse raises `AcmeError`.  The account record is
untouched. -/
def Acme.get_authorization (acc : Account) (resp : Response) :
    Except PyError Json × Account :=
  (match resp.jsonBody with
   | some j => Except.ok j
   | none => Except.error PyError.acmeError, acc)

/-- `new_authorization` (acme.py lines 123-133): on status 201 a
`NewAuthorizationResult` of the parsed body and the `Location` header,
`AcmeError` otherwise (also when the body does not parse).  The account
record is untouched. -/
def Acme.new_authorization (acc : Account) (resp : Response) :
    Except PyError NewAuthorizationResult × Account :=
  (if resp.status = 201 then
      match resp.jsonBody with
      | some j => Except.ok ⟨j, dget resp.headers "Location"⟩
      | none => Except.error PyError.acmeError
    else Except.error PyError.acmeError, acc)

/-- `issue_certificate` (acme.py lines 158-175): on status 201, the raw
body is the certificate, `Location` the certificate URL, and when a
`Link rel="up"` relation is present its URL is fetched over a plain GET
(`fetch` is the environment's answer to that GET); any other status raises
`AcmeError`.  The account record is untouched. -/
def Acme.issue_certificate (acc : Account) (resp : Response)
    (fetch : String → String) : Except PyError IssuanceResult × Account :=
  (if resp.status = 201 then
      Except.ok ⟨resp.content, dget resp.headers "Location",
                 (dget resp.links "up").map fetch⟩
    else Except.error PyError.acmeError, acc)

/-- `register` of the v1 client (acme.py lines 74-98).  `resp` is the
server's answer to the signed POST.  On status 201 the account's `uri` is
set to the `Location` header before the body is parsed, so the URI is
recorded even when `_json` then raises `AcmeError`; the terms URL comes
from the `terms-of-service` link relation.  On 409 an
`AccountAlreadyExistsError` carrying the `Location` header is raised; any
other status raises `AcmeError`; neither touches the account. -/
def Acme.register (acc : Account) (resp : Response) :
    Except PyError RegistrationResult × Account :=
  let uri := dget resp.headers "Location"
  if resp.status = 201 then
    let acc2 : Account := { acc with uri := uri }
    match resp.jsonBody with
    | some j =>
        (Except.ok ⟨j, uri, (dget resp.links "terms-of-service").map Json.str⟩, acc2)
    | none => (Except.error PyError.acmeError, acc2)
  else if resp.status = 409 then
    (Except.error (PyError.accountAlreadyExists uri), acc)
  else
    (Except.error PyError.acmeError, acc)

/-- Whether `needle` occurs as a contiguous sublist of the second list
(Python's substring test on strings). -/
def listContainsSub (needle : List Char) : List Char → Bool
  | [] => needle.isEmpty
  | c :: t => needle.isPrefixOf (c :: t) || listContainsSub needle t

/-- Python `key in j` on a parsed JSON document: key membership for
objects, element equality for arrays (only string elements can equal a
string key), substring test for strings, and `TypeError` for null,
booleans and numbers, which are not iterable. -/
def pyIn (key : String) : Json → Except PyError Bool
  | Json.obj fields => Except.ok (fields.any (fun p => p.1 == key))
  | Json.arr elems =>
      Except.ok (elems.any (fun e =>
        match e with
        | Json.str s => s == key
        | _ => false))
  | Json.str s => Except.ok (listContainsSub key.data s.data)
  | _ => Except.error PyError.typeError

/-- Python `j[key]` subscription with a string key: object lookup
(`KeyError` when the key is absent), `TypeError` on strings, arrays and
every other non-object document. -/
def pySubscript (j : Json) (key : String) : Except PyError Json :=
  match j with
  | Json.obj fields =>
      match dget fields key with
      | some v => Except.ok v
      | none => Except.error PyError.keyError
  | _ => Except.error PyError.typeError

/-- `url_from_directory` of the v2 client (acme.py lines 260-264), given
the environment's answer `dirResp` to the directory GET: on status 200 it
is `response.json()[what_url]` (`ValueError` when the body does not
parse, `KeyError` when the key is absent, `TypeError` when the document
is not an object), on any other status `None`. -/
def AcmeV2.url_from_directory (dirResp : Response) (what_url : String) :
    Except PyError (Option Json) :=
  if dirResp.status = 200 then
    match dirResp.jsonBody with
    | none => Except.error PyError.valueError
    | some j =>
        match pySubscript j what_url with
        | Except.ok v => Except.ok (some v)
        | Except.error e => Except.error e
  else Except.ok none

/-- `terms_from_directory` of the v2 client (acme.py lines 266-272), given
the environment's answer `dirResp` to the directory GET: on a 200 parse,
`"meta" in response.json()` then `"termsOfService" in
response.json()['meta']` with Python's membership and subscription
semantics — so a 200 body parsing to null, a boolean or a number raises
`TypeError`, as does subscripting a string or array whose membership test
succeeded — returning the `meta.termsOfService` value when both keys are
present and `None` otherwise; `ValueError` when a 200 body does not
parse; `None` on any non-200 status. -/
def AcmeV2.terms_from_directory (dirResp : Response) :
    Except PyError (Option Json) :=
  if dirResp.status = 200 then
    match dirResp.jsonBody with
    | none => Except.error PyError.valueError
    | some j =>
        match pyIn "meta" j with
        | Except.error e => Except.error e
        | Except.ok false => Except.ok none
        | Except.ok true =>
            match pySubscript j "meta" with
            | Except.error e => Except.error e
            | Except.ok m =>
                match pyIn "termsOfService" m with
                | Except.error e => Except.error e
                | Except.ok false => Except.ok none
                | Except.ok true =>
                    match pySubscript m "termsOfService" with
                    | Except.error e => Except.error e
                    | Except.ok t => Except.ok (some t)
  else Except.ok none

/-- `register` of the v2 client (acme.py lines 282-311).  `resp` answers
the signed POST to the `newAccount` URL, `dirResp` answers the directory
GET that `terms_from_directory` performs on the 201 path.  As in v1 the
account's `uri` is set before the terms fetch and the body parse, so it is
recorded even when either of those then raises. -/
def AcmeV2.register (acc : Account) (resp : Response) (dirResp : Response) :
    Except PyError RegistrationResult × Account :=
  let uri := dget resp.headers "Location"
  if resp.status = 201 then
    let acc2 : Account := { acc with uri := uri }
    match AcmeV2.terms_from_directory dirResp with
    | Except.error e => (Except.error e, acc2)
    | Except.ok terms =>
        match resp.jsonBody with
        | some j => (Except.ok ⟨j, uri, terms⟩, acc2)
        | none => (Except.error PyError.acmeError, acc2)
  else if resp.status = 409 then
    (Except.error (PyError.accountAlreadyExists uri), acc)
  else
    (Except.error PyError.acmeError, acc)

/-- Lines 115-116 of `update_registration`: `params = params or {}` then
`params['resource'] = "reg"`.  First component: the dictionary actually
sent.  Second component: the caller's dictionary as it stands after the
call — `none` when the caller passed `None`; an empty dictionary is falsy
in Python, so it is replaced by a fresh one and the caller's stays empty;
a non-empty dictionary is mutated in place. -/
def Acme.update_registration_params (params : Option Dict) : Dict × Option Dict :=
  match params with
  | none => (dset [] "resource" (Json.str "reg"), none)
  | some d =>
      if d.isEmpty then (dset [] "resource" (Json.str "reg"), some d)
      else
        let d2 := dset d "resource" (Json.str "reg")
        (d2, some d2)

/-- `update_registration` (acme.py lines 111-121): `True` on any 2xx
status, `AcmeError` otherwise.  Returns, in order, the result, the account
record (untouched) and the caller's params dictionary after the call. -/
def Acme.update_registration (acc : Account) (params : Option Dict)
    (resp : Response) : Except PyError Bool × Account × Option Dict :=
  (if status2xx resp.status then Except.ok true else Except.error PyError.acmeError,
   acc, (Acme.update_registration_params params).2)

/-- A Python `None`-able string as it is stored into a dictionary slot:
`protected_header['nonce'] = self.get_nonce()` stores the string, or
`None` when the header was absent. -/
def optStrJson : Option String → Json
  | some s => Json.str s
  | none => Json.null

/-- `get_nonce` of the v1 client (acme.py lines 59-63): the `Replay-Nonce`
header of the environment's answer `dirResp` to the `GET /directory` the
method performs; `None` when the header is absent. -/
def Acme.get_nonce (dirResp : Response) : Option String :=
  dget dirResp.headers "Replay-Nonce"

/-- `get_nonce` of the v2 client (acme.py lines 274-280): the
`Replay-Nonce` header of the environment's answer `headResp` to the HEAD
request sent to the directory's `newNonce` URL; `None` when the header is
absent. -/
def AcmeV2.get_nonce (headResp : Response) : Option String :=
  dget headResp.headers "Replay-Nonce"

/-- `get_headers` of the v1 client (acme.py lines 65-72): `base` is the
dictionary produced by `generate_header(self.account.key)` (opaque here),
`dirResp` the answer to the nonce fetch this call performs.  Returns the
plain header and the protected header, a deep copy of the plain header
with the freshly fetched nonce stored under `nonce`. -/
def Acme.get_headers (base : Dict) (dirResp : Response) : Dict × Dict :=
  (base, dset base "nonce" (optStrJson (Acme.get_nonce dirResp)))

/-- `get_headers` of the v2 client (acme.py lines 246-255): as in v1 but
returning only the protected header, with the request target stored under
`url` when one is supplied (every signed POST supplies one, line 319). -/
def AcmeV2.get_headers (base : Dict) (headResp : Response) (url : Option String) : Dict :=
  let protected2 := dset base "nonce" (optStrJson (AcmeV2.get_nonce headResp))
  match url with
  | some u => dset protected2 "url" (Json.str u)
  | none => protected2

/-- The protected header of the k-th signed POST of a v1 client run:
`post` (acme.py lines 199-215) calls `get_headers` which fetches one fresh
nonce, so the k-th signed request consumes the environment's k-th nonce
response `env k`. -/
def Acme.signed_post_protected (base : Dict) (env : Nat → Response) (k : Nat) : Dict :=
  (Acme.get_headers base (env k)).2

/-- The protected header of the k-th signed POST of a v2 client run:
`post` (acme.py lines 313-329) calls `get_headers` with the resolved
target `urls k`, which fetches one fresh nonce from `env k`. -/
def AcmeV2.signed_post_protected (base : Dict) (env : Nat → Response)
    (urls : Nat → String) (k : Nat) : Dict :=
  AcmeV2.get_headers base (env k) (some (urls k))

/-- Splits a character list at the first character satisfying `p`: the
prefix before it and the remainder starting with it. -/
def takeUntil (p : Char → Bool) : List Char → List Char × List Char
  | [] => ([], [])
  | c :: cs =>
      if p c then ([], c :: cs)
      else
        let r := takeUntil p cs
        (c :: r.1, r.2)

/-- Characters allowed in a URL scheme (`urllib.parse.scheme_chars`). -/
def isSchemeChar (c : Char) : Bool :=
  c.isAlphanum || c == '+' || c == '-' || c == '.'

/-- Scheme detection of `urllib.parse.urlsplit`: when the input starts
with a letter followed by scheme characters up to a colon, the scheme and
the remainder after the colon; `none` otherwise. -/
def stripScheme (cs : List Char) : Option (List Char × List Char) :=
  let split := takeUntil (fun c => !(isSchemeChar c)) cs
  match split.2 with
  | ':' :: rest =>
      match split.1 with
      | [] => none
      | c :: _ => if c.isAlpha then some (split.1, rest) else none
  | _ => none

/-- The five components of `urllib.parse.urlsplit`. -/
structure SplitUrl where
  scheme : String
  netloc : String
  path : String
  query : String
  fragment : String

/-- Model of `urllib.parse.urlsplit(url, scheme=defaultScheme)` for the
URL shapes this client handles: scheme (lower-cased, defaulted when
absent), network location after `//` up to the next `/`, `?` or `#`, then
path, query and fragment. -/
def urlsplit (defaultScheme : String) (url : String) : SplitUrl :=
  let cs := url.data
  let schemeRest : String × List Char :=
    match stripScheme cs with
    | some sr => (String.mk (sr.1.map Char.toLower), sr.2)
    | none => (defaultScheme, cs)
  let netlocRest : String × List Char :=
    match schemeRest.2 with
    | '/' :: '/' :: r =>
        let nr := takeUntil (fun c => c == '/' || c == '?' || c == '#') r
        (String.mk nr.1, nr.2)
    | other => ("", other)
  let fragSplit := takeUntil (fun c => c == '#') netlocRest.2
  let frag : List Char := match fragSplit.2 with
    | _ :: f => f
    | [] => []
  let querySplit := takeUntil (fun c => c == '?') fragSplit.1
  let query : List Char := match querySplit.2 with
    | _ :: q => q
    | [] => []
  ⟨schemeRest.1, netlocRest.1, String.mk querySplit.1, String.mk query, String.mk frag⟩

/-- The parameter split `urllib.parse.urlparse` applies to the path: the
final `/`-separated segment is truncated at its first `;`. -/
def splitParamsChars (cs : List Char) : List Char :=
  let seg := ((takeUntil (fun c => c == '/') cs.reverse).1).reverse
  cs.take (cs.length - seg.length) ++ (takeUntil (fun c => c == ';') seg).1

/-- Model of `urllib.parse.urlparse(s).path` — the path component of the
split, with trailing parameters removed. -/
def urlparsePath (s : String) : String :=
  String.mk (splitParamsChars (urlsplit "" s).path.data)

/-- Model of `urllib.parse.urlunsplit`. -/
def urlunsplit (u : SplitUrl) : String :=
  let url0 := u.path
  let url1 :=
    if u.netloc ≠ "" || pyStartsWith url0 "//" then
      "//" ++ u.netloc ++ (if url0 ≠ "" && !(pyStartsWith url0 "/") then "/" ++ url0 else url0)
    else url0
  let url2 := if u.scheme ≠ "" then u.scheme ++ ":" ++ url1 else url1
  let url3 := if u.query ≠ "" then url2 ++ "?" ++ u.query else url2
  if u.fragment ≠ "" then url3 ++ "#" ++ u.fragment else url3

/-- Base path kept through its last `/`, then the relative path appended
(the segment merge of `urljoin`; dot segments do not occur in this
client's inputs and are not normalized). -/
def mergeRelPath (bpath rpath : String) : String :=
  let bcs := bpath.data
  let seg := ((takeUntil (fun c => c == '/') bcs.reverse).1).reverse
  String.mk (bcs.take (bcs.length - seg.length)) ++ rpath

/-- Model of `urllib.parse.urljoin(base, url)` for http-style URLs
(schemes using relative resolution and a network location; dot-segment
normalization omitted, the client never produces dot segments): a URL
under a different scheme is returned unchanged; a URL with its own
network location wins; an empty path inherits the base path and query; an
absolute path replaces the base path; a relative path is merged onto the
base path's directory. -/
def urljoin (base url : String) : String :=
  if base = "" then url
  else if url = "" then base
  else
    let b := urlsplit "" base
    let u := urlsplit b.scheme url
    if u.scheme ≠ b.scheme then url
    else if u.netloc ≠ "" then urlunsplit u
    else
      let u2 : SplitUrl := { u with netloc := b.netloc }
      if u2.path = "" then
        urlunsplit { u2 with path := b.path,
                             query := if u2.query = "" then b.query else u2.query }
      else if pyStartsWith u2.path "/" then urlunsplit u2
      else urlunsplit { u2 with path := mergeRelPath b.path u2.path }

/-- `path` (acme.py lines 217-221): a target starting with `http` is first
stripped to its `urlparse(...).path`, then the result is joined against
the client's configured base URL. -/
def Acme.path (baseUrl : String) (p : String) : String :=
  urljoin baseUrl (if pyStartsWith p "http" then urlparsePath p else p)

theorem dget_dset {α : Type} (d : List (String × α)) (k : String) (v : α) :
    dget (dset d k v) k = some v := by
  induction d with
  | nil => simp [dget, dset]
  | cons hd tl ih =>
      obtain ⟨k2, v2⟩ := hd
      by_cases h : k2 == k
      · simp [dset, h, dget]
      · simp [dset, h, dget, ih]

theorem dget_dset_ne {α : Type} (d : List (String × α)) (k k2 : String) (v : α)
    (h : k ≠ k2) : dget (dset d k2 v) k = dget d k := by
  have hbeq : (k2 == k) = false := beq_eq_false_iff_ne.mpr (fun he => h he.symm)
  induction d with
  | nil => simp [dget, dset, hbeq]
  | cons hd tl ih =>
      obtain ⟨k3, v3⟩ := hd
      by_cases h3 : k3 == k2
      · have hk3 : k3 = k2 := by simpa [beq_iff_eq] using h3
        subst hk3
        simp [dset, dget, hbeq]
      · simp [dset, h3, dget, ih]

theorem optStrJson_inj (a b : Option String) (h : optStrJson a = optStrJson b) :
    a = b := by
  cases a <;> cases b <;> simp_all [optStrJson]

/-- An account record before registration, used as concrete input. -/
def accFix : Account := ⟨"account-key", none⟩

/-- C5: for every certificate input, `revoke_certificate` returns `True`
exactly when the server's response status is 200; every other status
(other 2xx codes included) raises the generic protocol error and returns
nothing. -/
theorem revoke_certificate_200_only (acc : Account) (resp : Response) :
    ((Acme.revoke_certificate acc resp).1 = Except.ok true ↔ resp.status = 200) ∧
    (resp.status ≠ 200 →
      (Acme.revoke_certificate acc resp).1 = Except.error PyError.acmeError) := by
  refine ⟨⟨fun h => ?_, fun h200 => ?_⟩, fun h200 => ?_⟩
  · by_cases h200 : resp.status = 200
    · exact h200
    · simp [Acme.revoke_certificate, h200] at h
  · simp [Acme.revoke_certificate, h200]
  · simp [Acme.revoke_certificate, h200]

/-- Witness for C5: status 200 yields `True`, status 202 (a 2xx that is
not 200) raises `AcmeError`. -/
theorem revoke_certificate_200_only_witness :
    (Acme.revoke_certificate accFix ⟨200, [], [], "", none⟩).1 = Except.ok true ∧
    (Acme.revoke_certificate accFix ⟨202, [], [], "", none⟩).1 =
      Except.error PyError.acmeError :=
  ⟨(revoke_certificate_200_only accFix ⟨200, [], [], "", none⟩).1.mpr rfl,
   (revoke_certificate_200_only accFix ⟨202, [], [], "", none⟩).2 (by decide)⟩

/-- C4: on a 201 issuance response the result's certificate is the raw
response body, its location the `Location` header, and its intermediate
the bytes fetched over a plain GET from the `Link rel="up"` URL; with no
`up` relation the intermediate is `None`; any non-201 status raises the
generic protocol error. -/
theorem issue_certificate_result (acc : Account) (resp : Response)
    (fetch : String → String) (u : String) :
    (resp.status = 201 → dget resp.links "up" = some u →
      (Acme.issue_certificate acc resp fetch).1 =
        Except.ok ⟨resp.content, dget resp.headers "Location", some (fetch u)⟩) ∧
    (resp.status = 201 → dget resp.links "up" = none →
      (Acme.issue_certificate acc resp fetch).1 =
        Except.ok ⟨resp.content, dget resp.headers "Location", none⟩) ∧
    (resp.status ≠ 201 →
      (Acme.issue_certificate acc resp fetch).1 = Except.error PyError.acmeError) := by
  refine ⟨fun h1 h2 => ?_, fun h1 h2 => ?_, fun h1 => ?_⟩
  · simp [Acme.issue_certificate, h1, h2]
  · simp [Acme.issue_certificate, h1, h2]
  · simp [Acme.issue_certificate, h1]

/-- A 201 issuance response with a `Location` header and an `up` link. -/
def issuanceRespFix : Response :=
  ⟨201, [("Location", "https://ca/cert/123")], [("up", "https://ca/issuer")],
   "CERTBYTES", none⟩

/-- The environment's answer to plain GETs during issuance. -/
def issuerFetchFix : String → String :=
  fun u => if u = "https://ca/issuer" then "CHAINBYTES" else ""

/-- Witness for C4: on the concrete 201 response the result carries the
body, the `Location` value and the chain fetched from the linked URL. -/
theorem issue_certificate_result_witness :
    (Acme.issue_certificate accFix issuanceRespFix issuerFetchFix).1 =
      Except.ok ⟨"CERTBYTES", some "https://ca/cert/123", some "CHAINBYTES"⟩ :=
  (issue_certificate_result accFix issuanceRespFix issuerFetchFix
    "https://ca/issuer").1 rfl rfl

/-- C7: whenever the v2 directory fetch answers with status 200 and a
parsed JSON object holding the operation name, `url_from_directory`
returns exactly the value stored under that key — a pure lookup in the
most recent directory fetch. -/
theorem url_from_directory_pure_lookup (dirResp : Response) (name : String)
    (j v : Json) (h200 : dirResp.status = 200) (hj : dirResp.jsonBody = some j)
    (hk : jsonGet j name = some v) :
    AcmeV2.url_from_directory dirResp name = Except.ok (some v) := by
  have hsub : pySubscript j name = Except.ok v := by
    cases j <;> simp [jsonGet] at hk
    simp [pySubscript, hk]
  simp [AcmeV2.url_from_directory, h200, hj, hsub]

/-- A 200 directory response whose JSON maps `newAccount` to a URL. -/
def directoryRespFix : Response :=
  ⟨200, [], [], "",
   some (Json.obj [("newNonce", Json.str "https://ca/acme/new-nonce"),
                   ("newAccount", Json.str "https://ca/acme/new-acct")])⟩

/-- Witness for C7: looking up `newAccount` in the concrete directory
response returns the stored URL value. -/
theorem url_from_directory_pure_lookup_witness :
    AcmeV2.url_from_directory directoryRespFix "newAccount" =
      Except.ok (some (Json.str "https://ca/acme/new-acct")) :=
  url_from_directory_pure_lookup directoryRespFix "newAccount"
    (Json.obj [("newNonce", Json.str "https://ca/acme/new-nonce"),
               ("newAccount", Json.str "https://ca/acme/new-acct")])
    (Json.str "https://ca/acme/new-acct") rfl rfl rfl

/-- C6: a target starting with an http scheme is resolved by stripping it
to its path component and re-joining against the configured base URL; in
particular, against base `https://ca.example/` the absolute link
`https://ca.example:443/acme/authz/9` resolves to the same target as the
relative path `/acme/authz/9`, namely
`https://ca.example/acme/authz/9`. -/
theorem path_absolute_url_normalization :
    (∀ (baseUrl s : String), pyStartsWith s "http" = true →
        Acme.path baseUrl s = urljoin baseUrl (urlparsePath s)) ∧
    Acme.path "https://ca.example/" "https://ca.example:443/acme/authz/9" =
      Acme.path "https://ca.example/" "/acme/authz/9" ∧
    Acme.path "https://ca.example/" "/acme/authz/9" =
      "https://ca.example/acme/authz/9" := by
  refine ⟨fun baseUrl s h => ?_, ?_, ?_⟩
  · simp [Acme.path, h]
  · rfl
  · decide

/-- Witness for C6: the normalization law applied to the absolute link
`http://x/y`. -/
theorem path_absolute_url_normalization_witness :
    Acme.path "https://ca.example/" "http://x/y" =
      urljoin "https://ca.example/" (urlparsePath "http://x/y") :=
  path_absolute_url_normalization.1 "https://ca.example/" "http://x/y" rfl

/-- A 201 registration response whose body is not valid JSON. -/
def regBadJsonRespFix : Response :=
  ⟨201, [("Location", "https://ca/acct/1")], [], "not json", none⟩

/-- Counterexample for C1: on a 201 registration response whose body is
not valid JSON, `register` does not return a `RegistrationResult` — the
`_json` call raises the generic protocol error — so "201 implies a
RegistrationResult" fails as stated. -/
theorem register_201_badjson_counterexample :
    (Acme.register accFix regBadJsonRespFix).1 = Except.error PyError.acmeError := rfl

/-- C1 (amended): on status 201 `register` (v1 and v2) sets the account
URI to the `Location` header unconditionally; when additionally the body
parses as JSON (and, for v2, the terms directory lookup does not raise),
it returns a `RegistrationResult`; on a 201 with an unparseable body the
URI is still set and the generic protocol error is raised — except that
in v2 an exception out of the terms lookup propagates first, again with
the URI already set; status 409 raises `AccountAlreadyExists` carrying
the `Location` header; any other status raises the generic protocol
error; the 409 and other-status paths leave the account unchanged. -/
theorem register_status_behavior (acc : Account) (resp dirResp : Response)
    (j : Json) (t : Option Json) (e : PyError) :
    (resp.status = 201 →
      (Acme.register acc resp).2 =
        { acc with uri := dget resp.headers "Location" }) ∧
    (resp.status = 201 →
      (AcmeV2.register acc resp dirResp).2 =
        { acc with uri := dget resp.headers "Location" }) ∧
    (resp.status = 201 → resp.jsonBody = some j →
      Acme.register acc resp =
        (Except.ok ⟨j, dget resp.headers "Location",
                    (dget resp.links "terms-of-service").map Json.str⟩,
         { acc with uri := dget resp.headers "Location" })) ∧
    (resp.status = 201 → resp.jsonBody = none →
      Acme.register acc resp =
        (Except.error PyError.acmeError,
         { acc with uri := dget resp.headers "Location" })) ∧
    (resp.status = 409 →
      Acme.register acc resp =
        (Except.error (PyError.accountAlreadyExists (dget resp.headers "Location")),
         acc)) ∧
    (resp.status ≠ 201 → resp.status ≠ 409 →
      Acme.register acc resp = (Except.error PyError.acmeError, acc)) ∧
    (resp.status = 201 → resp.jsonBody = some j →
      AcmeV2.terms_from_directory dirResp = Except.ok t →
      AcmeV2.register acc resp dirResp =
        (Except.ok ⟨j, dget resp.headers "Location", t⟩,
         { acc with uri := dget resp.headers "Location" })) ∧
    (resp.status = 201 → resp.jsonBody = none →
      AcmeV2.terms_from_directory dirResp = Except.ok t →
      AcmeV2.register acc resp dirResp =
        (Except.error PyError.acmeError,
         { acc with uri := dget resp.headers "Location" })) ∧
    (resp.status = 201 →
      AcmeV2.terms_from_directory dirResp = Except.error e →
      AcmeV2.register acc resp dirResp =
        (Except.error e,
         { acc with uri := dget resp.headers "Location" })) ∧
    (resp.status = 409 →
      AcmeV2.register acc resp dirResp =
        (Except.error (PyError.accountAlreadyExists (dget resp.headers "Location")),
         acc)) ∧
    (resp.status ≠ 201 → resp.status ≠ 409 →
      AcmeV2.register acc resp dirResp = (Except.error PyError.acmeError, acc)) := by
  refine ⟨fun h1 => ?_, fun h1 => ?_, fun h1 h2 => ?_, fun h1 h2 => ?_,
          fun h9 => ?_, fun h1 h9 => ?_, fun h1 h2 ht => ?_, fun h1 h2 ht => ?_,
          fun h1 ht => ?_, fun h9 => ?_, fun h1 h9 => ?_⟩
  · cases h2 : resp.jsonBody <;> simp [Acme.register, h1, h2]
  · cases ht : AcmeV2.terms_from_directory dirResp <;>
      cases h2 : resp.jsonBody <;> simp [AcmeV2.register, h1, ht, h2]
  · simp [Acme.register, h1, h2]
  · simp [Acme.register, h1, h2]
  · simp [Acme.register, h9]
  · simp [Acme.register, h1, h9]
  · simp [AcmeV2.register, h1, h2, ht]
  · simp [AcmeV2.register, h1, h2, ht]
  · simp [AcmeV2.register, h1, ht]
  · simp [AcmeV2.register, h9]
  · simp [AcmeV2.register, h1, h9]

/-- A successful 201 registration response with a parseable body and a
terms-of-service link. -/
def reg201RespFix : Response :=
  ⟨201, [("Location", "https://ca/acct/1")],
   [("terms-of-service", "https://ca/terms")], "",
   some (Json.obj [("status", Json.str "valid")])⟩

/-- A 409 registration response carrying the pre-existing account URI. -/
def reg409RespFix : Response :=
  ⟨409, [("Location", "https://ca/acct/9")], [], "", none⟩

/-- A v2 201 registration response whose body is not valid JSON. -/
def regBadJsonV2RespFix : Response :=
  ⟨201, [("Location", "https://ca/acct/3")], [], "not json either", none⟩

/-- Witness for C1: the concrete 201 response yields the result and sets
the URI; a v2 201 response with an unparseable body still sets the URI
and raises the generic protocol error; the concrete 409 response raises
`AccountAlreadyExists` with the `Location` value and leaves the account
unchanged. -/
theorem register_status_behavior_witness :
    Acme.register accFix reg201RespFix =
      (Except.ok ⟨Json.obj [("status", Json.str "valid")],
                  some "https://ca/acct/1", some (Json.str "https://ca/terms")⟩,
       ⟨"account-key", some "https://ca/acct/1"⟩) ∧
    AcmeV2.register accFix regBadJsonV2RespFix directoryRespFix =
      (Except.error PyError.acmeError,
       ⟨"account-key", some "https://ca/acct/3"⟩) ∧
    AcmeV2.register accFix reg409RespFix directoryRespFix =
      (Except.error (PyError.accountAlreadyExists (some "https://ca/acct/9")),
       accFix) :=
  ⟨(register_status_behavior accFix reg201RespFix directoryRespFix
      (Json.obj [("status", Json.str "valid")]) none
      PyError.acmeError).2.2.1 rfl rfl,
   (register_status_behavior accFix regBadJsonV2RespFix directoryRespFix
      Json.null none PyError.acmeError).2.2.2.2.2.2.2.1 rfl rfl rfl,
   (register_status_behavior accFix reg409RespFix directoryRespFix
      Json.null none PyError.acmeError).2.2.2.2.2.2.2.2.2.1 rfl⟩

/-- A 201 registration response with an unparseable body, distinct input
for the frame counterexample. -/
def regBadJsonRespFix2 : Response :=
  ⟨201, [("Location", "https://ca/acct/2")], [], "<html>", none⟩

/-- Counterexample for C8: on a 201 registration response whose body is
not valid JSON, `register` raises (an error path) and yet the account
record has been mutated — its URI was assigned before the body parse —
so "every error path leaves the account unchanged" fails as stated. -/
theorem account_mutation_counterexample :
    (Acme.register accFix regBadJsonRespFix2).1 = Except.error PyError.acmeError ∧
    (Acme.register accFix regBadJsonRespFix2).2 ≠ accFix := by
  refine ⟨rfl, ?_⟩
  decide

/-- C8 (amended): the only mutation any operation performs on the
caller's account record is setting its URI on a status-201 registration
response — including the 201 path on which JSON parsing subsequently
fails and an error is raised; every other operation, and the 409 and
other-status paths of `register`, leave the account unchanged. -/
theorem account_frame (acc : Account) (resp dirResp : Response)
    (params : Option Dict) (fetch : String → String) :
    (Acme.register acc resp).2 =
      (if resp.status = 201
        then { acc with uri := dget resp.headers "Location" } else acc) ∧
    (AcmeV2.register acc resp dirResp).2 =
      (if resp.status = 201
        then { acc with uri := dget resp.headers "Location" } else acc) ∧
    (Acme.get_registration acc resp).2 = acc ∧
    (Acme.update_registration acc params resp).2.1 = acc ∧
    (Acme.new_authorization acc resp).2 = acc ∧
    (Acme.validate_authorization acc resp).2 = acc ∧
    (Acme.get_authorization acc resp).2 = acc ∧
    (Acme.issue_certificate acc resp fetch).2 = acc ∧
    (Acme.revoke_certificate acc resp).2 = acc := by
  have hv1 : (Acme.register acc resp).2 =
      (if resp.status = 201
        then { acc with uri := dget resp.headers "Location" } else acc) := by
    by_cases h1 : resp.status = 201
    · cases hj : resp.jsonBody <;> simp [Acme.register, h1, hj]
    · by_cases h9 : resp.status = 409 <;> simp [Acme.register, h1, h9]
  have hv2 : (AcmeV2.register acc resp dirResp).2 =
      (if resp.status = 201
        then { acc with uri := dget resp.headers "Location" } else acc) := by
    by_cases h1 : resp.status = 201
    · cases ht : AcmeV2.terms_from_directory dirResp <;>
        cases hj : resp.jsonBody <;> simp [AcmeV2.register, h1, ht, hj]
    · by_cases h9 : resp.status = 409 <;> simp [AcmeV2.register, h1, h9]
  exact ⟨hv1, hv2, rfl, rfl, rfl, rfl, rfl, rfl, rfl⟩

theorem dget_nonce_v1 (base : Dict) (dirResp : Response) :
    dget (Acme.get_headers base dirResp).2 "nonce" =
      some (optStrJson (Acme.get_nonce dirResp)) :=
  dget_dset base "nonce" _

theorem dget_nonce_v2 (base : Dict) (headResp : Response) (u : String) :
    dget (AcmeV2.get_headers base headResp (some u)) "nonce" =
      some (optStrJson (AcmeV2.get_nonce headResp)) := by
  show dget (dset (dset base "nonce" (optStrJson (AcmeV2.get_nonce headResp)))
        "url" (Json.str u)) "nonce" = _
  rw [dget_dset_ne _ _ _ _ (by decide)]
  exact dget_dset base "nonce" _

/-- C2: the k-th signed POST (v1 and v2) places in its protected header
exactly the nonce fetched by the `get_nonce` call it performs — the
environment's k-th nonce response — and consecutive signed requests whose
fetched nonces differ produce headers with different nonces, so no signed
request reuses the nonce of the immediately preceding one as long as the
server issues fresh nonces. -/
theorem fresh_nonce_per_signed_request (base : Dict) (env : Nat → Response)
    (urls : Nat → String) (k : Nat) :
    dget (Acme.signed_post_protected base env k) "nonce" =
      some (optStrJson (Acme.get_nonce (env k))) ∧
    dget (AcmeV2.signed_post_protected base env urls k) "nonce" =
      some (optStrJson (AcmeV2.get_nonce (env k))) ∧
    (Acme.get_nonce (env k) ≠ Acme.get_nonce (env (k + 1)) →
      dget (Acme.signed_post_protected base env k) "nonce" ≠
        dget (Acme.signed_post_protected base env (k + 1)) "nonce") ∧
    (AcmeV2.get_nonce (env k) ≠ AcmeV2.get_nonce (env (k + 1)) →
      dget (AcmeV2.signed_post_protected base env urls k) "nonce" ≠
        dget (AcmeV2.signed_post_protected base env urls (k + 1)) "nonce") := by
  have h1 : ∀ m, dget (Acme.signed_post_protected base env m) "nonce" =
      some (optStrJson (Acme.get_nonce (env m))) := fun m =>
    dget_dset base "nonce" _
  have h2 : ∀ m, dget (AcmeV2.signed_post_protected base env urls m) "nonce" =
      some (optStrJson (AcmeV2.get_nonce (env m))) := fun m =>
    dget_nonce_v2 base (env m) (urls m)
  refine ⟨h1 k, h2 k, fun hne heq => ?_, fun hne heq => ?_⟩
  · rw [h1 k, h1 (k + 1)] at heq
    exact hne (optStrJson_inj _ _ (Option.some.inj heq))
  · rw [h2 k, h2 (k + 1)] at heq
    exact hne (optStrJson_inj _ _ (Option.some.inj heq))

/-- A nonce environment issuing distinct nonces on its first two
responses. -/
def nonceEnvFix : Nat → Response :=
  fun k =>
    if k = 0 then ⟨200, [("Replay-Nonce", "nonce-0")], [], "", none⟩
    else ⟨200, [("Replay-Nonce", "nonce-1")], [], "", none⟩

/-- Witness for C2: with the concrete environment the first two signed
requests carry different nonces. -/
theorem fresh_nonce_per_signed_request_witness :
    dget (Acme.signed_post_protected [] nonceEnvFix 0) "nonce" ≠
      dget (Acme.signed_post_protected [] nonceEnvFix 1) "nonce" :=
  (fresh_nonce_per_signed_request [] nonceEnvFix
      (fun _ => "https://ca/acme/new-acct") 0).2.2.1 (by decide)

/-- C9: when the `Replay-Nonce` header is absent from the nonce-fetch
response, `get_nonce` (v1 and v2) returns the null token rather than
raising, and `get_headers` stores that null token into the protected
header's `nonce` slot with no prior check. -/
theorem get_nonce_absent_header (dirResp headResp : Response) (base : Dict)
    (u : String) (h1 : dget dirResp.headers "Replay-Nonce" = none)
    (h2 : dget headResp.headers "Replay-Nonce" = none) :
    Acme.get_nonce dirResp = none ∧
    AcmeV2.get_nonce headResp = none ∧
    dget (Acme.get_headers base dirResp).2 "nonce" = some Json.null ∧
    dget (AcmeV2.get_headers base headResp (some u)) "nonce" = some Json.null := by
  have hn1 : Acme.get_nonce dirResp = none := h1
  have hn2 : AcmeV2.get_nonce headResp = none := h2
  refine ⟨hn1, hn2, ?_, ?_⟩
  · have h := dget_nonce_v1 base dirResp
    rw [hn1] at h
    exact h
  · have h := dget_nonce_v2 base headResp u
    rw [hn2] at h
    exact h

/-- A nonce-fetch response carrying no headers at all. -/
def noNonceRespFix : Response := ⟨200, [], [], "", none⟩

/-- Witness for C9: on the concrete header-less response both clients
yield the null token and both place it, unchecked, into the protected
header. -/
theorem get_nonce_absent_header_witness :
    Acme.get_nonce noNonceRespFix = none ∧
    AcmeV2.get_nonce noNonceRespFix = none ∧
    dget (Acme.get_headers [] noNonceRespFix).2 "nonce" = some Json.null ∧
    dget (AcmeV2.get_headers [] noNonceRespFix
      (some "https://ca/acme/new-acct")) "nonce" = some Json.null :=
  get_nonce_absent_header noNonceRespFix noNonceRespFix []
    "https://ca/acme/new-acct" rfl rfl

/-- v1 `register` target path, hardcoded (acme.py line 78). -/
def Acme.register_path : String := "/acme/new-reg"

/-- v1 `register` payload (acme.py lines 78-83). -/
def Acme.register_payload (email : String) : Dict :=
  [("resource", Json.str "new-reg"),
   ("contact", Json.arr [Json.str ("mailto:" ++ email)])]

/-- v1 `get_registration` payload (acme.py lines 104-106); the target is
the account URI. -/
def Acme.get_registration_payload : Dict := [("resource", Json.str "reg")]

/-- v1 `new_authorization` target path, hardcoded (acme.py line 127). -/
def Acme.new_authorization_path : String := "/acme/new-authz"

/-- v1 `new_authorization` payload (acme.py lines 127-130). -/
def Acme.new_authorization_payload (domain : String) : Dict :=
  [("resource", Json.str "new-authz"),
   ("identifier", Json.obj [("type", Json.str "dns"), ("value", Json.str domain)])]

/-- v1 `validate_authorization` payload (acme.py lines 139-143); the
target is the challenge URI. -/
def Acme.validate_authorization_payload (t keyAuthorization : String) : Dict :=
  [("resource", Json.str "challenge"), ("type", Json.str t),
   ("keyAuthorization", Json.str keyAuthorization)]

/-- v1 `issue_certificate` target path, hardcoded (acme.py line 160). -/
def Acme.issue_certificate_path : String := "/acme/new-cert"

/-- v1 `issue_certificate` payload (acme.py lines 160-163). -/
def Acme.issue_certificate_payload (csr : String) : Dict :=
  [("resource", Json.str "new-cert"), ("csr", Json.str csr)]

/-- v1 `revoke_certificate` target path, hardcoded (acme.py line 178). -/
def Acme.revoke_certificate_path : String := "/acme/revoke-cert"

/-- v1 `revoke_certificate` payload (acme.py lines 178-181). -/
def Acme.revoke_certificate_payload (cert : String) : Dict :=
  [("resource", Json.str "revoke-cert"), ("certificate", Json.str cert)]

/-- v2 `register` payload (acme.py lines 285-290): terms agreement flag
and contact, no `resource` field. -/
def AcmeV2.register_payload (email : String) : Dict :=
  [("termsOfServiceAgreed", Json.bool true),
   ("contact", Json.arr [Json.str ("mailto:" ++ email)])]

/-- v2 `register` target (acme.py line 292): resolved through the fetched
directory under the `newAccount` key. -/
def AcmeV2.register_url (dirResp : Response) : Except PyError (Option Json) :=
  AcmeV2.url_from_directory dirResp "newAccount"

/-- `AcmeV2` (acme.py line 230) does not override `new_authorization`:
the v2 client inherits the v1 target path. -/
def AcmeV2.new_authorization_path : String := Acme.new_authorization_path

/-- `AcmeV2` does not override `new_authorization`: inherited v1 payload,
`resource` field included. -/
def AcmeV2.new_authorization_payload (domain : String) : Dict :=
  Acme.new_authorization_payload domain

/-- `AcmeV2` does not override `new_authorization`: inherited v1 response
handling. -/
def AcmeV2.new_authorization (acc : Account) (resp : Response) :
    Except PyError NewAuthorizationResult × Account :=
  Acme.new_authorization acc resp

/-- `AcmeV2` does not override `issue_certificate`: inherited v1 target
path. -/
def AcmeV2.issue_certificate_path : String := Acme.issue_certificate_path

/-- `AcmeV2` does not override `issue_certificate`: inherited v1 payload,
`resource` field included. -/
def AcmeV2.issue_certificate_payload (csr : String) : Dict :=
  Acme.issue_certificate_payload csr

/-- `AcmeV2` does not override `issue_certificate`: inherited v1 response
handling. -/
def AcmeV2.issue_certificate (acc : Account) (resp : Response)
    (fetch : String → String) : Except PyError IssuanceResult × Account :=
  Acme.issue_certificate acc resp fetch

/-- `AcmeV2` does not override `revoke_certificate`: inherited v1 target
path. -/
def AcmeV2.revoke_certificate_path : String := Acme.revoke_certificate_path

/-- `AcmeV2` does not override `revoke_certificate`: inherited v1
payload, `resource` field included. -/
def AcmeV2.revoke_certificate_payload (cert : String) : Dict :=
  Acme.revoke_certificate_payload cert

/-- `AcmeV2` does not override `revoke_certificate`: inherited v1
response handling. -/
def AcmeV2.revoke_certificate (acc : Account) (resp : Response) :
    Except PyError Bool × Account :=
  Acme.revoke_certificate acc resp

/-- `AcmeV2` does not override `get_registration`: inherited v1 method,
`resource` payload included. -/
def AcmeV2.get_registration (acc : Account) (resp : Response) :
    Except PyError Json × Account :=
  Acme.get_registration acc resp

/-- `AcmeV2` does not override `update_registration`: inherited v1
method. -/
def AcmeV2.update_registration (acc : Account) (params : Option Dict)
    (resp : Response) : Except PyError Bool × Account × Option Dict :=
  Acme.update_registration acc params resp

/-- `AcmeV2` does not override `validate_authorization`: inherited v1
method, `resource` payload included. -/
def AcmeV2.validate_authorization (acc : Account) (resp : Response) :
    Except PyError Bool × Account :=
  Acme.validate_authorization acc resp

/-- `AcmeV2` does not override `get_authorization`: inherited v1
method. -/
def AcmeV2.get_authorization (acc : Account) (resp : Response) :
    Except PyError Json × Account :=
  Acme.get_authorization acc resp

/-- Counterexample for C3: invoked on the v2 client, `new_authorization`
is the inherited v1 method — its payload still carries a `resource` field
and its target is the hardcoded v1 path, not a directory lookup. -/
theorem acmev2_inherited_resource_counterexample :
    dget (AcmeV2.new_authorization_payload "example.org") "resource" =
      some (Json.str "new-authz") ∧
    AcmeV2.new_authorization_path = "/acme/new-authz" := ⟨rfl, rfl⟩

/-- C3 (amended): on the v2 client only `register` omits the `resource`
field and resolves its target through the fetched directory; every other
operation is inherited unchanged from the v1 client, so its payload
embeds a `resource` field and its target is the v1 hardcoded path; the
v1 client embeds `resource` in every signed payload; both variants expose
the same operation surface with the same result shapes. -/
theorem v1_v2_operation_surface (email domain t keyAuthorization csr cert : String)
    (params : Option Dict) (dirResp : Response) (acc : Account) (resp : Response)
    (fetch : String → String) :
    dget (AcmeV2.register_payload email) "resource" = none ∧
    AcmeV2.register_url dirResp = AcmeV2.url_from_directory dirResp "newAccount" ∧
    dget (Acme.register_payload email) "resource" = some (Json.str "new-reg") ∧
    dget Acme.get_registration_payload "resource" = some (Json.str "reg") ∧
    dget (Acme.update_registration_params params).1 "resource" =
      some (Json.str "reg") ∧
    dget (Acme.new_authorization_payload domain) "resource" =
      some (Json.str "new-authz") ∧
    dget (Acme.validate_authorization_payload t keyAuthorization) "resource" =
      some (Json.str "challenge") ∧
    dget (Acme.issue_certificate_payload csr) "resource" =
      some (Json.str "new-cert") ∧
    dget (Acme.revoke_certificate_payload cert) "resource" =
      some (Json.str "revoke-cert") ∧
    AcmeV2.new_authorization_payload domain = Acme.new_authorization_payload domain ∧
    AcmeV2.new_authorization_path = Acme.new_authorization_path ∧
    AcmeV2.new_authorization acc resp = Acme.new_authorization acc resp ∧
    AcmeV2.issue_certificate_payload csr = Acme.issue_certificate_payload csr ∧
    AcmeV2.issue_certificate_path = Acme.issue_certificate_path ∧
    AcmeV2.issue_certificate acc resp fetch = Acme.issue_certificate acc resp fetch ∧
    AcmeV2.revoke_certificate_payload cert = Acme.revoke_certificate_payload cert ∧
    AcmeV2.revoke_certificate_path = Acme.revoke_certificate_path ∧
    AcmeV2.revoke_certificate acc resp = Acme.revoke_certificate acc resp ∧
    AcmeV2.get_registration acc resp = Acme.get_registration acc resp ∧
    AcmeV2.update_registration acc params resp = Acme.update_registration acc params resp ∧
    AcmeV2.validate_authorization acc resp = Acme.validate_authorization acc resp ∧
    AcmeV2.get_authorization acc resp = Acme.get_authorization acc resp := by
  have hupd : dget (Acme.update_registration_params params).1 "resource" =
      some (Json.str "reg") := by
    match params with
    | none => rfl
    | some d =>
        by_cases hd : d.isEmpty
        · simp [Acme.update_registration_params, hd, dget_dset]
        · simp [Acme.update_registration_params, hd, dget_dset]
  exact ⟨rfl, rfl, rfl, rfl, hupd, rfl, rfl, rfl, rfl, rfl, rfl, rfl, rfl, rfl,
         rfl, rfl, rfl, rfl, rfl, rfl, rfl, rfl⟩

/-- Counterexample for C10: a caller-supplied empty dictionary is
non-null, yet `params = params or {}` replaces it (empty dictionaries are
falsy) with a fresh one, so the caller's dictionary is not mutated: after
the call it is still empty and carries no `resource` key. -/
theorem update_registration_empty_dict_counterexample :
    (Acme.update_registration_params (some [])).2 = some [] ∧
    dget ([] : Dict) "resource" = none := ⟨rfl, rfl⟩

/-- C10 (amended): `update_registration` sets `resource` to `"reg"` in
place in the caller's dictionary exactly when the caller passed a
non-empty dictionary (a no-op when it already maps `resource` to
`"reg"`); a `None` or empty dictionary is replaced by a fresh one and the
caller's value is left untouched; the dictionary actually sent always
maps `resource` to `"reg"`. -/
theorem update_registration_params_mutation (d : Dict) (hd : d ≠ []) :
    (Acme.update_registration_params none).2 = none ∧
    (Acme.update_registration_params (some [])).2 = some [] ∧
    (Acme.update_registration_params (some d)).2 =
      some (dset d "resource" (Json.str "reg")) ∧
    dget (Acme.update_registration_params (some d)).1 "resource" =
      some (Json.str "reg") := by
  obtain ⟨p, tl, rfl⟩ : ∃ p tl, d = p :: tl := by
    cases d with
    | nil => exact absurd rfl hd
    | cons p tl => exact ⟨p, tl, rfl⟩
  exact ⟨rfl, rfl, rfl, dget_dset _ "resource" _⟩

/-- Witness for C10: a concrete one-entry dictionary gains the
`resource` entry in place. -/
theorem update_registration_params_mutation_witness :
    (Acme.update_registration_params
        (some [("contact", Json.str "mailto:admin@example.org")])).2 =
      some [("contact", Json.str "mailto:admin@example.org"),
            ("resource", Json.str "reg")] :=
  (update_registration_params_mutation
      [("contact", Json.str "mailto:admin@example.org")]
      (List.cons_ne_nil _ _)).2.2.1

end Automatoes
